import Mathlib

/-!
# Verification of heroku/authenticater (googleauth.go)

A shallow embedding of the OAuth request gate in `googleauth.go`:
the session record (`sess`), the session-key derivation (`keys`,
`sessionConfig`), the domain verifier (`domainAllowed`), and the
per-request authorization gate (`loginOk`, `ServeHTTPContext`).

Side effects are made explicit:
* the cookie codec (`github.com/kr/session`) is an external dependency,
  so the result of `session.Get` is an input (`GetResult`) and each
  `session.Set` / `deleteCookie` call is recorded as a `CookieWrite`;
* each `http.Error` / `http.Redirect` call is recorded as an
  `HttpResponse`;
* the randomness of `newState` is an input (the fresh state string);
* the outbound network calls (`conf.Exchange`, the profile GET inside
  `domainAllowed`) are inputs describing the network outcome;
* `os.Exit` and runtime panics are modelled as explicit outcomes
  (`KeysResult.exit`, `Option.none`).
-/

namespace Authenticater

/-- The fixed callback path (`const callbackPath = "/oauth2callback"`). -/
def callbackPath : String := "/oauth2callback"

/-- An OAuth2 token, as returned by `conf.Exchange`.  Only its identity
matters to the gate, which stores it opaquely in the session. -/
structure OAuthToken where
  accessToken : String
  deriving Repr, DecidableEq

/-- The session record (`type sess struct`): an optional token, a
next-URL and a CSRF state.  Go zero values (`nil`, `""`) are `none` and
`""`. -/
structure Sess where
  oauthToken : Option OAuthToken
  nextURL : String
  state : String
  deriving Repr, DecidableEq

/-- The zero value `sess{}`. -/
def Sess.empty : Sess := { oauthToken := none, nextURL := "", state := "" }

/-- The parts of `url.URL` the gate reads on a server request:
`r.URL.Path` and the raw query (server requests carry no scheme/host). -/
structure URL where
  path : String
  rawQuery : String
  deriving Repr, DecidableEq

/-- The parts of `*http.Request` the gate reads: `r.Host`, `r.URL`,
and the two form values `state` and `code` (absent values are `""`,
as `r.FormValue` returns). -/
structure Request where
  host : String
  url : URL
  formState : String
  formCode : String
  deriving Repr, DecidableEq

/-- `u.String()` for a URL with scheme and host set and path/query taken
from the request, as built at googleauth.go:161-163. -/
def urlString (scheme host : String) (u : URL) : String :=
  scheme ++ "://" ++ host ++ u.path ++
    (if u.rawQuery = "" then "" else "?" ++ u.rawQuery)

/-- The configuration fields of `OAuthHandler` that the gate logic
reads.  `scopes = none` models a nil `Scopes` slice. -/
structure OAuthHandler where
  requireDomain : String
  name : String
  path : String
  domain : String
  maxAge : Int
  key : String
  clientID : String
  clientSecret : String
  scopes : Option (List String)
  deriving Repr, DecidableEq

/-- Google's authorization endpoint (`google.Endpoint.AuthURL`). -/
def googleAuthURL : String := "https://accounts.google.com/o/oauth2/auth"

/-- The two default scopes substituted when `Scopes` is nil
(googleauth.go:123-125). -/
def defaultScopes : List String :=
  ["https://www.googleapis.com/auth/userinfo.email",
   "https://www.googleapis.com/auth/userinfo.profile"]

/-- The `oauth2.Config` built inside `loginOk`. -/
structure OAuth2Config where
  clientID : String
  clientSecret : String
  redirectURL : String
  scopes : List String
  deriving Repr, DecidableEq

/-- The config value constructed at googleauth.go:114-125. -/
def confFor (h : OAuthHandler) (r : Request) : OAuth2Config :=
  { clientID := h.clientID
    clientSecret := h.clientSecret
    redirectURL := "https://" ++ r.host ++ callbackPath
    scopes := h.scopes.getD defaultScopes }

/-- `conf.AuthCodeURL(state)`: the provider authorization URL
parameterized with client id, redirect URL, scopes and the CSRF state. -/
def authCodeURL (conf : OAuth2Config) (state : String) : String :=
  googleAuthURL ++ "?response_type=code&client_id=" ++ conf.clientID ++
    "&redirect_uri=" ++ conf.redirectURL ++
    "&scope=" ++ String.intercalate " " conf.scopes ++
    "&state=" ++ state

/-! ## Key derivation (`keys`, `sessionConfig`) -/

/-- One hex digit, as `encoding/hex` accepts it. -/
def hexDigit (c : Char) : Option Nat :=
  if ('0' : Char) ≤ c ∧ c ≤ ('9' : Char) then some (c.toNat - ('0' : Char).toNat)
  else if ('a' : Char) ≤ c ∧ c ≤ ('f' : Char) then some (c.toNat - ('a' : Char).toNat + 10)
  else if ('A' : Char) ≤ c ∧ c ≤ ('F' : Char) then some (c.toNat - ('A' : Char).toNat + 10)
  else none

/-- `hex.DecodeString` on a character list: fails on odd length or on a
non-hex character, otherwise yields the decoded bytes. -/
def hexDecodeList : List Char → Option (List Nat)
  | [] => some []
  | [_] => none
  | a :: b :: rest => do
      let hi ← hexDigit a
      let lo ← hexDigit b
      let tail ← hexDecodeList rest
      pure ((hi * 16 + lo) :: tail)

/-- `hex.DecodeString`. -/
def hexDecode (s : String) : Option (List Nat) := hexDecodeList s.data

/-- Outcome of `keys`: either the process exits (`os.Exit`) or a
32-byte key is produced. -/
inductive KeysResult where
  | exit (code : Nat)
  | ok (key : List Nat)
  deriving Repr, DecidableEq

/-- `func keys(s string) []*[32]byte` (googleauth.go:209-228).  The
function receives the configured key string `s` but decodes
`os.Getenv("KEY")` instead; on a decode error or a length other than
32 bytes it calls `os.Exit(1)`.  The environment variable is an
explicit input `envKEY`. -/
def keys (s : String) (envKEY : String) : KeysResult :=
  match hexDecode envKEY with
  | none => KeysResult.exit 1
  | some key =>
      if key.length ≠ 32 then KeysResult.exit 1
      else KeysResult.ok key

/-- The `session.Config` built by `sessionConfig`. -/
structure SessionConfig where
  name : String
  path : String
  domain : String
  maxAge : Int
  keyList : List (List Nat)
  deriving Repr, DecidableEq

/-- Outcome of `sessionConfig`: the process exits inside `keys`, or a
config is produced. -/
inductive ConfigResult where
  | exit (code : Nat)
  | ok (c : SessionConfig)
  deriving Repr, DecidableEq

/-- `func (h *OAuthHandler) sessionConfig()` (googleauth.go:230-242),
with the environment made explicit.  It is called from `loginOk` on
every request (lines 107, 127, 156, 165), so `keys` runs — and can
exit the process — during request handling. -/
def sessionConfig (h : OAuthHandler) (envKEY : String) : ConfigResult :=
  match keys h.key envKEY with
  | KeysResult.exit n => ConfigResult.exit n
  | KeysResult.ok k =>
      ConfigResult.ok
        { name := if h.name = "" then "googlegoauth" else h.name
          path := h.path
          domain := h.domain
          maxAge := h.maxAge
          keyList := [k] }

/-! ## Domain verifier (`domainAllowed`) -/

/-- The fields of `googleProfile` decoded from the profile JSON. -/
structure GoogleProfile where
  id : String
  displayName : String
  familyName : String
  givenName : String
  email : String
  deriving Repr, DecidableEq

/-- `strings.Split` on a single-character separator, on the character
list: Go's `strings.Split(s, sep)` for non-empty `sep` always returns
at least one element (`Split("", "@") = [""]`). -/
def splitOnChar (sep : Char) : List Char → List (List Char)
  | [] => [[]]
  | c :: rest =>
      if c = sep then [] :: splitOnChar sep rest
      else
        match splitOnChar sep rest with
        | [] => [[c]]
        | h :: t => (c :: h) :: t

/-- `strings.Split(s, "@")` (googleauth.go:199). -/
def stringsSplitAt (s : String) : List String :=
  (splitOnChar '@' s.data).map (fun cs => String.mk cs)

/-- Outcome of the profile GET `client.Get(...)`:
* `netErr`: the call returned a non-nil error and a nil response
  (the ordinary network-failure contract of `http.Client.Get`);
* `resp status body`: a response arrived with the given status code;
  `body = none` models a body that fails JSON decoding, `body = some gp`
  a body decoding to the profile `gp` (missing JSON fields decode to
  `""`). -/
inductive HttpGetOutcome where
  | netErr
  | resp (statusCode : Nat) (body : Option GoogleProfile)
  deriving Repr, DecidableEq

/-- `func domainAllowed(client *http.Client, domain string) bool`
(googleauth.go:179-207), as a function of the GET outcome.
`none` models a runtime panic: when the call errors the response is
nil, and the error branch evaluates `resp.StatusCode` (line 183),
a nil-pointer dereference.  Otherwise the Go function returns the
boolean in `some`. -/
def domainAllowed (outcome : HttpGetOutcome) (domain : String) : Option Bool :=
  match outcome with
  | HttpGetOutcome.netErr => none
  | HttpGetOutcome.resp statusCode body =>
      if statusCode ≠ 200 then some false
      else
        match body with
        | none => some false
        | some gp =>
            let user := stringsSplitAt gp.email
            if user.length < 2 ∨ user.getD 1 "" ≠ domain then some false
            else some true

/-- The spec's email condition, stated from its words: the email
contains exactly one `@` and the substring after that `@` equals the
required domain. -/
def emailSpecAllowed (email domain : String) : Prop :=
  (email.data.filter (fun c => c = '@')).length = 1 ∧
    (stringsSplitAt email).getD 1 "" = domain

instance (email domain : String) : Decidable (emailSpecAllowed email domain) := by
  unfold emailSpecAllowed; infer_instance

/-! ## The authorization gate (`loginOk`, `ServeHTTPContext`) -/

/-- The result of `session.Get(r, &user, ...)` (an external codec):
* `ok s`: the cookie decoded to the record `s`;
* `errNoCookie`: `http.ErrNoCookie` — no cookie was present
  (`user` keeps its zero value);
* `errOther`: any other error — a malformed, tampered or otherwise
  undecodable cookie. -/
inductive GetResult where
  | ok (s : Sess)
  | errNoCookie
  | errOther
  deriving Repr, DecidableEq

/-- The session record `loginOk` works with: the decoded record, or the
zero value when decoding did not produce one. -/
def userOf : GetResult → Sess
  | GetResult.ok s => s
  | GetResult.errNoCookie => Sess.empty
  | GetResult.errOther => Sess.empty

/-- An HTTP response written by the gate itself: `http.Error(w, msg,
code)` or `http.Redirect(w, r, location, code)`. -/
inductive HttpResponse where
  | error (msg : String) (code : Nat)
  | redirect (location : String) (code : Nat)
  deriving Repr, DecidableEq

/-- Whether a response is a redirect. -/
def HttpResponse.isRedirect : HttpResponse → Bool
  | HttpResponse.redirect _ _ => true
  | HttpResponse.error _ _ => false

/-- The status code of a gate response. -/
def HttpResponse.code : HttpResponse → Nat
  | HttpResponse.error _ c => c
  | HttpResponse.redirect _ c => c

/-- A cookie operation performed by the gate: `session.Set(w, s, ...)`
with the normal config, or `deleteCookie` (a `session.Set` of the empty
record under a negative max-age, googleauth.go:244-248). -/
inductive CookieWrite where
  | set (s : Sess)
  | delete
  deriving Repr, DecidableEq

/-- Everything observable about one `loginOk` call:
* `cookieWrites` / `responses`: the codec and response calls, in order;
* `ok`: the boolean `loginOk` returns (`true` = proceed to handler);
* `clientToken`: the token from which the authenticated client stored
  in the context was built (`conf.Client(ctx, ...)` at line 129), if any;
* `exchangeAttempted`: whether `conf.Exchange` was called;
* `domainChecked`: whether `domainAllowed` was called. -/
structure LoginOkResult where
  cookieWrites : List CookieWrite
  responses : List HttpResponse
  ok : Bool
  clientToken : Option OAuthToken
  exchangeAttempted : Bool
  domainChecked : Bool
  deriving Repr, DecidableEq

/-- `func (h *OAuthHandler) loginOk` (googleauth.go:104-168).

External effects are inputs: `decode` is what `session.Get` produced,
`exchange` maps the `code` form value to `conf.Exchange`'s outcome
(`none` = error), `domainOk` is what `domainAllowed` would return if
called, and `freshState` is the random string `newState()` would
produce.  The model assumes `sessionConfig` succeeded (otherwise the
process already exited; see `keys`). -/
def loginOk (h : OAuthHandler) (decode : GetResult) (r : Request)
    (exchange : String → Option OAuthToken) (domainOk : Bool)
    (freshState : String) : LoginOkResult :=
  match decode with
  | GetResult.errOther =>
      -- err != nil && err != http.ErrNoCookie (lines 108-112)
      { cookieWrites := [CookieWrite.delete]
        responses := [HttpResponse.error "internal error" 500]
        ok := false, clientToken := none
        exchangeAttempted := false, domainChecked := false }
  | _ =>
    let user := userOf decode
    match user.oauthToken with
    | some tok =>
        -- user.OAuthToken != nil (lines 126-132)
        { cookieWrites := [CookieWrite.set user]
          responses := []
          ok := true, clientToken := some tok
          exchangeAttempted := false, domainChecked := false }
    | none =>
      if r.url.path = callbackPath then
        -- r.URL.Path == callbackPath (lines 133-159)
        if r.formState ≠ user.state then
          { cookieWrites := [CookieWrite.delete]
            responses := [HttpResponse.error "access forbidden" 401]
            ok := false, clientToken := none
            exchangeAttempted := false, domainChecked := false }
        else
          match exchange r.formCode with
          | none =>
              { cookieWrites := [CookieWrite.delete]
                responses := [HttpResponse.error "access forbidden" 401]
                ok := false, clientToken := none
                exchangeAttempted := true, domainChecked := false }
          | some tok =>
              if h.requireDomain ≠ "" ∧ domainOk = false then
                { cookieWrites := [CookieWrite.delete]
                  responses := [HttpResponse.error "access forbidden" 401]
                  ok := false, clientToken := none
                  exchangeAttempted := true, domainChecked := true }
              else
                { cookieWrites := [CookieWrite.set
                      { oauthToken := some tok, nextURL := "", state := "" }]
                  responses := [HttpResponse.redirect user.nextURL 307]
                  ok := false, clientToken := none
                  exchangeAttempted := true
                  domainChecked := h.requireDomain != "" }
      else
        -- lines 161-167
        { cookieWrites := [CookieWrite.set
              { oauthToken := none
                nextURL := urlString "https" r.host r.url
                state := freshState }]
          responses := [HttpResponse.redirect
              (authCodeURL (confFor h r) freshState) 307]
          ok := false, clientToken := none
          exchangeAttempted := false, domainChecked := false }

/-- The observable outcome of `ServeHTTPContext`
(googleauth.go:88-100): the gate result plus the number of times the
wrapped handler was invoked. -/
structure ServeResult where
  gate : LoginOkResult
  handlerInvocations : Nat
  deriving Repr, DecidableEq

/-- `func (h *OAuthHandler) ServeHTTPContext`: run `loginOk`; invoke
the wrapped handler exactly once iff it returned `true`. -/
def ServeHTTPContext (h : OAuthHandler) (decode : GetResult) (r : Request)
    (exchange : String → Option OAuthToken) (domainOk : Bool)
    (freshState : String) : ServeResult :=
  let g := loginOk h decode r exchange domainOk freshState
  { gate := g, handlerInvocations := if g.ok then 1 else 0 }

/-! ## The gate with its crash paths (`loginOkFull`)

`loginOk` models the request path under the assumption that
`sessionConfig` succeeded and that a performed domain check returned a
boolean.  The real code has two paths on which neither holds: `keys`
can call `os.Exit(1)` inside `sessionConfig` — which `loginOk` invokes
on every request — and `domainAllowed` dereferences a nil response on a
network error.  `loginOkFull` keeps both. -/

/-- Whether `sessionConfig` exits the process. -/
def ConfigResult.isExit : ConfigResult → Bool
  | ConfigResult.exit _ => true
  | ConfigResult.ok _ => false

/-- The outcome of one full `loginOk` call: the process exits inside
`keys` (`os.Exit`, no response, no handler), the handler goroutine
panics inside `domainAllowed` (no response, no handler), or the call
completes with the observables of `LoginOkResult`. -/
inductive GateOutcome where
  | exit (code : Nat)
  | panic
  | done (res : LoginOkResult)
  deriving Repr, DecidableEq

/-- The responses the gate itself wrote: none on the exit and panic
outcomes (`os.Exit` terminates immediately; `net/http` recovers the
panic and drops the connection without a response). -/
def GateOutcome.responsesWritten : GateOutcome → List HttpResponse
  | GateOutcome.done res => res.responses
  | _ => []

/-- How many times the protected handler runs: once iff the gate
completed with `ok = true`; never on exit or panic. -/
def GateOutcome.handlerInvocations : GateOutcome → Nat
  | GateOutcome.done res => if res.ok then 1 else 0
  | _ => 0

/-- `loginOk` (googleauth.go:104-168) with the two crash paths kept:
`sessionConfig` runs first (line 107) and exits the process when the
environment key is bad; when a domain restriction is configured, the
check at line 150 calls `domainAllowed`, whose outcome on the given
profile GET may be the nil-dereference panic.  All completed branches
carry the same records as `loginOk`. -/
def loginOkFull (h : OAuthHandler) (envKEY : String) (decode : GetResult)
    (r : Request) (exchange : String → Option OAuthToken)
    (profileGet : HttpGetOutcome) (freshState : String) : GateOutcome :=
  match sessionConfig h envKEY with
  | ConfigResult.exit n => GateOutcome.exit n
  | ConfigResult.ok _ =>
    match decode with
    | GetResult.errOther =>
        GateOutcome.done
          { cookieWrites := [CookieWrite.delete]
            responses := [HttpResponse.error "internal error" 500]
            ok := false, clientToken := none
            exchangeAttempted := false, domainChecked := false }
    | _ =>
      let user := userOf decode
      match user.oauthToken with
      | some tok =>
          GateOutcome.done
            { cookieWrites := [CookieWrite.set user]
              responses := []
              ok := true, clientToken := some tok
              exchangeAttempted := false, domainChecked := false }
      | none =>
        if r.url.path = callbackPath then
          if r.formState ≠ user.state then
            GateOutcome.done
              { cookieWrites := [CookieWrite.delete]
                responses := [HttpResponse.error "access forbidden" 401]
                ok := false, clientToken := none
                exchangeAttempted := false, domainChecked := false }
          else
            match exchange r.formCode with
            | none =>
                GateOutcome.done
                  { cookieWrites := [CookieWrite.delete]
                    responses := [HttpResponse.error "access forbidden" 401]
                    ok := false, clientToken := none
                    exchangeAttempted := true, domainChecked := false }
            | some tok =>
                if h.requireDomain ≠ "" then
                  match domainAllowed profileGet h.requireDomain with
                  | none => GateOutcome.panic
                  | some false =>
                      GateOutcome.done
                        { cookieWrites := [CookieWrite.delete]
                          responses := [HttpResponse.error "access forbidden" 401]
                          ok := false, clientToken := none
                          exchangeAttempted := true, domainChecked := true }
                  | some true =>
                      GateOutcome.done
                        { cookieWrites := [CookieWrite.set
                              { oauthToken := some tok, nextURL := ""
                                state := "" }]
                          responses := [HttpResponse.redirect user.nextURL 307]
                          ok := false, clientToken := none
                          exchangeAttempted := true
                          domainChecked := h.requireDomain != "" }
                else
                  GateOutcome.done
                    { cookieWrites := [CookieWrite.set
                          { oauthToken := some tok, nextURL := "", state := "" }]
                      responses := [HttpResponse.redirect user.nextURL 307]
                      ok := false, clientToken := none
                      exchangeAttempted := true
                      domainChecked := h.requireDomain != "" }
        else
          GateOutcome.done
            { cookieWrites := [CookieWrite.set
                  { oauthToken := none
                    nextURL := urlString "https" r.host r.url
                    state := freshState }]
              responses := [HttpResponse.redirect
                  (authCodeURL (confFor h r) freshState) 307]
              ok := false, clientToken := none
              exchangeAttempted := false, domainChecked := false }

/-! ## Concrete fixtures for witnesses and counterexamples -/

/-- A handler with no domain restriction and default scopes. -/
def h0 : OAuthHandler :=
  { requireDomain := "", name := "", path := "/", domain := ""
    maxAge := 3600, key := "", clientID := "cid", clientSecret := "sec"
    scopes := none }

/-- A handler requiring the domain `example.com`. -/
def hDom : OAuthHandler := { h0 with requireDomain := "example.com" }

/-- A concrete token. -/
def tok0 : OAuthToken := { accessToken := "ya29.token" }

/-- An anonymous GET of `/dashboard`. -/
def rDash : Request :=
  { host := "app.example.com"
    url := { path := "/dashboard", rawQuery := "" }
    formState := "", formCode := "" }

/-- A callback request with the given `state` and `code` parameters. -/
def rCallback (st code : String) : Request :=
  { host := "app.example.com"
    url := { path := callbackPath, rawQuery := "" }
    formState := st, formCode := code }

/-- A token-exchange oracle that always errors. -/
def exNone : String → Option OAuthToken := fun _ => none

/-- A token-exchange oracle succeeding exactly on the code `goodcode`. -/
def exTok : String → Option OAuthToken :=
  fun c => if c = "goodcode" then some tok0 else none

/-- The example key string from the comment in `keys`
(googleauth.go:211): 64 hex characters, 32 bytes. -/
def goodHex : String :=
  "faba0c08be7474a785b272c4f4154c998c0943b51e662637be11b1a0ecda43b3"

/-! ## Claim theorems -/

/-- Claim C1, counterexample: a callback request carrying no `state`
query parameter, against a session whose `state` field is empty, is NOT
treated as a state mismatch: since `r.FormValue("state")` and
`user.State` are both `""`, the comparison at googleauth.go:134
succeeds, the token exchange is attempted, and (exchange succeeding, no
domain restriction) the gate redirects 307 instead of responding 401. -/
theorem callback_no_state_not_denied_cex :
    (loginOk h0
        (GetResult.ok { oauthToken := none
                        nextURL := "https://app.example.com/dashboard"
                        state := "" })
        (rCallback "" "goodcode") exTok true "fresh").exchangeAttempted = true ∧
    (loginOk h0
        (GetResult.ok { oauthToken := none
                        nextURL := "https://app.example.com/dashboard"
                        state := "" })
        (rCallback "" "goodcode") exTok true "fresh").responses =
      [HttpResponse.redirect "https://app.example.com/dashboard" 307] ∧
    (loginOk h0
        (GetResult.ok { oauthToken := none
                        nextURL := "https://app.example.com/dashboard"
                        state := "" })
        (rCallback "" "goodcode") exTok true "fresh").responses ≠
      [HttpResponse.error "access forbidden" 401] := by
  decide

/-- Claim C1, amended: on the callback path with an empty session
`state`, the gate denies (delete cookie, 401, no exchange) exactly when
the request carries a non-empty `state` parameter; when the request
`state` is also empty the comparison passes and the token exchange IS
attempted. -/
theorem callback_empty_session_state (h : OAuthHandler) (s : Sess)
    (r : Request) (ex : String → Option OAuthToken) (dok : Bool)
    (fs : String) (hTok : s.oauthToken = none)
    (hPath : r.url.path = callbackPath) (hSt : s.state = "") :
    (r.formState ≠ "" →
      loginOk h (GetResult.ok s) r ex dok fs =
        { cookieWrites := [CookieWrite.delete]
          responses := [HttpResponse.error "access forbidden" 401]
          ok := false, clientToken := none
          exchangeAttempted := false, domainChecked := false }) ∧
    (r.formState = "" →
      (loginOk h (GetResult.ok s) r ex dok fs).exchangeAttempted = true) := by
  constructor
  · intro hne
    simp [loginOk, userOf, hTok, hPath, hSt, hne]
  · intro heq
    cases hx : ex r.formCode with
    | none => simp [loginOk, userOf, hTok, hPath, hSt, heq, hx]
    | some tok =>
        simp [loginOk, userOf, hTok, hPath, hSt, heq, hx]
        split <;> rfl

/-- Witness for the amended C1 theorem at a concrete input. -/
theorem callback_empty_session_state_witness :
    (loginOk h0
        (GetResult.ok { oauthToken := none
                        nextURL := "https://app.example.com/dashboard"
                        state := "" })
        (rCallback "" "goodcode") exTok true "fresh").exchangeAttempted = true :=
  (callback_empty_session_state h0
    { oauthToken := none, nextURL := "https://app.example.com/dashboard", state := "" }
    (rCallback "" "goodcode") exTok true "fresh" rfl rfl rfl).2 rfl

/-- Claim C2 (code bug): `keys` ignores its argument — the configured
`OAuthHandler.Key` string — and instead decodes the environment
variable `KEY`; with a valid 64-hex configured key but an unset (empty)
environment variable it calls `os.Exit(1)`.  Since `sessionConfig`
(and hence `keys`) runs inside `loginOk` on every request, the
environment is read and the exit can happen in the per-request path,
not at startup. -/
theorem keys_env_not_config :
    keys goodHex "" = KeysResult.exit 1 ∧
    (∀ s t env : String, keys s env = keys t env) ∧
    keys "" goodHex ≠ keys "" "" := by
  refine ⟨by decide, fun s t env => rfl, by decide⟩

/-- Claim C3 (code bug): when the profile GET returns a network error,
`http.Client.Get` yields a nil response, and the error branch of
`domainAllowed` evaluates `resp.StatusCode` (googleauth.go:183) — a nil
pointer dereference, modelled as `none` — instead of returning
`false`. -/
theorem domainAllowed_network_error_panics :
    ∀ domain : String, domainAllowed HttpGetOutcome.netErr domain = none :=
  fun _ => rfl

/-- Claim C4, counterexample: the profile email
`alice@example.com@evil.test` contains two `@` characters, so the
claimed condition (exactly one `@`) rejects it, yet `domainAllowed`
accepts it for domain `example.com`: `strings.Split` yields three
parts and only index 1 is compared. -/
theorem domainAllowed_multi_at_cex :
    domainAllowed
        (HttpGetOutcome.resp 200
          (some { id := "", displayName := "", familyName := ""
                  givenName := "", email := "alice@example.com@evil.test" }))
        "example.com" = some true ∧
    ¬ emailSpecAllowed "alice@example.com@evil.test" "example.com" := by
  decide

/-- Claim C4, amended: on a 200 response with a well-formed profile,
`domainAllowed` returns true iff splitting the email on `@` yields at
least two parts and the part at index 1 — the segment between the
first and second `@`, which is the whole suffix when the email has
exactly one `@` — equals the required domain.  Emails with no `@` or a
non-matching index-1 segment are denied, but an email with several `@`
whose index-1 segment matches is allowed. -/
theorem domainAllowed_email_iff (gp : GoogleProfile) (domain : String) :
    domainAllowed (HttpGetOutcome.resp 200 (some gp)) domain = some true ↔
      2 ≤ (stringsSplitAt gp.email).length ∧
        (stringsSplitAt gp.email).getD 1 "" = domain := by
  by_cases hcond : (stringsSplitAt gp.email).length < 2 ∨
      (stringsSplitAt gp.email).getD 1 "" ≠ domain
  · simp only [domainAllowed]
    rw [if_neg (by omega), if_pos hcond]
    constructor
    · intro hft; exact absurd hft (by simp)
    · rintro ⟨h1, h2⟩
      rcases hcond with hc | hc
      · omega
      · exact absurd h2 hc
  · push_neg at hcond
    simp only [domainAllowed]
    rw [if_neg (by omega), if_neg (by push_neg; exact hcond)]
    exact ⟨fun _ => hcond, fun _ => rfl⟩

/-- Claim C5, counterexample: on a cookie-decode failure the gate does
not send the caller into the login redirect flow: it writes exactly one
response, the 500 "internal error", and no redirect at all. -/
theorem tampered_cookie_500_cex :
    (loginOk h0 GetResult.errOther rDash exNone true "f").responses =
      [HttpResponse.error "internal error" 500] ∧
    (loginOk h0 GetResult.errOther rDash exNone true "f").responses.any
      HttpResponse.isRedirect = false ∧
    (loginOk h0 GetResult.errOther rDash exNone true "f").ok = false := by
  decide

/-- Claim C5, amended: a malformed or tampered cookie (any decode error
other than cookie-absent) makes the gate delete the cookie and respond
500 without invoking the handler; it never grants access and never
produces an authenticated record — but it answers 500 rather than
entering the login redirect flow. -/
theorem tampered_cookie_behavior (h : OAuthHandler) (r : Request)
    (ex : String → Option OAuthToken) (dok : Bool) (fs : String) :
    loginOk h GetResult.errOther r ex dok fs =
      { cookieWrites := [CookieWrite.delete]
        responses := [HttpResponse.error "internal error" 500]
        ok := false, clientToken := none
        exchangeAttempted := false, domainChecked := false } :=
  rfl

/-- Claim C6: whenever the session decodes to a record with a non-nil
token, the gate re-encodes the identical record (refreshing the cookie),
builds the authenticated client capability from the stored token,
writes no response of its own, and the protected handler runs exactly
once.  The gate is a pure function of its inputs, so this holds on
every repetition of such a request. -/
theorem authenticated_request_forwarded (h : OAuthHandler) (s : Sess)
    (r : Request) (ex : String → Option OAuthToken) (dok : Bool)
    (fs : String) (tok : OAuthToken) (hTok : s.oauthToken = some tok) :
    ServeHTTPContext h (GetResult.ok s) r ex dok fs =
      { gate := { cookieWrites := [CookieWrite.set s]
                  responses := []
                  ok := true, clientToken := some tok
                  exchangeAttempted := false, domainChecked := false }
        handlerInvocations := 1 } := by
  simp [ServeHTTPContext, loginOk, userOf, hTok]

/-- Witness for C6 at a concrete authenticated request. -/
theorem authenticated_request_forwarded_witness :
    ServeHTTPContext h0
        (GetResult.ok { oauthToken := some tok0, nextURL := "", state := "" })
        rDash exNone true "f" =
      { gate := { cookieWrites := [CookieWrite.set
                      { oauthToken := some tok0, nextURL := "", state := "" }]
                  responses := []
                  ok := true, clientToken := some tok0
                  exchangeAttempted := false, domainChecked := false }
        handlerInvocations := 1 } :=
  authenticated_request_forwarded h0
    { oauthToken := some tok0, nextURL := "", state := "" }
    rDash exNone true "f" tok0 rfl

/-- Claim C7: a request that is neither authenticated (no session
token) nor on the callback path gets a session containing exactly the
canonical HTTPS next-URL of the requested resource and the fresh CSRF
state, and a 307 redirect to the provider authorization URL
parameterized with that same state; the protected handler is not
invoked. -/
theorem anonymous_request_redirected (h : OAuthHandler) (dec : GetResult)
    (r : Request) (ex : String → Option OAuthToken) (dok : Bool)
    (fs : String) (hDec : dec ≠ GetResult.errOther)
    (hTok : (userOf dec).oauthToken = none)
    (hPath : r.url.path ≠ callbackPath) :
    ServeHTTPContext h dec r ex dok fs =
      { gate := { cookieWrites := [CookieWrite.set
                      { oauthToken := none
                        nextURL := urlString "https" r.host r.url
                        state := fs }]
                  responses := [HttpResponse.redirect
                      (authCodeURL (confFor h r) fs) 307]
                  ok := false, clientToken := none
                  exchangeAttempted := false, domainChecked := false }
        handlerInvocations := 0 } := by
  cases dec with
  | errOther => exact absurd rfl hDec
  | errNoCookie =>
      simp [ServeHTTPContext, loginOk, userOf, Sess.empty, hPath]
  | ok s =>
      simp only [userOf] at hTok
      simp [ServeHTTPContext, loginOk, userOf, hTok, hPath]

/-- Witness for C7: a cookie-less GET of /dashboard. -/
theorem anonymous_request_redirected_witness :
    ServeHTTPContext h0 GetResult.errNoCookie rDash exNone true "abc" =
      { gate := { cookieWrites := [CookieWrite.set
                      { oauthToken := none
                        nextURL := urlString "https" rDash.host rDash.url
                        state := "abc" }]
                  responses := [HttpResponse.redirect
                      (authCodeURL (confFor h0 rDash) "abc") 307]
                  ok := false, clientToken := none
                  exchangeAttempted := false, domainChecked := false }
        handlerInvocations := 0 } :=
  anonymous_request_redirected h0 GetResult.errNoCookie rDash exNone true "abc"
    (by decide) rfl (by decide)

/-- Claim C8: a callback request whose state matches the stored session
state, whose code exchange succeeds and which passes any configured
domain check makes the gate write a brand-new session containing only
the token (no next-URL, no state) and respond 307 to the stored
next-URL; the protected handler is not invoked on this request. -/
theorem callback_success_redirect (h : OAuthHandler) (dec : GetResult)
    (r : Request) (ex : String → Option OAuthToken) (dok : Bool)
    (fs : String) (tok : OAuthToken) (hDec : dec ≠ GetResult.errOther)
    (hTok : (userOf dec).oauthToken = none)
    (hPath : r.url.path = callbackPath)
    (hSt : r.formState = (userOf dec).state)
    (hEx : ex r.formCode = some tok)
    (hDom : h.requireDomain = "" ∨ dok = true) :
    ServeHTTPContext h dec r ex dok fs =
      { gate := { cookieWrites := [CookieWrite.set
                      { oauthToken := some tok, nextURL := "", state := "" }]
                  responses := [HttpResponse.redirect (userOf dec).nextURL 307]
                  ok := false, clientToken := none
                  exchangeAttempted := true
                  domainChecked := h.requireDomain != "" }
        handlerInvocations := 0 } := by
  have hcond : ¬(h.requireDomain ≠ "" ∧ dok = false) := by
    rcases hDom with hd | hd
    · exact fun hc => hc.1 hd
    · exact fun hc => by rw [hd] at hc; exact absurd hc.2 (by simp)
  cases dec with
  | errOther => exact absurd rfl hDec
  | errNoCookie =>
      simp only [userOf, Sess.empty] at hSt ⊢
      simp [ServeHTTPContext, loginOk, userOf, Sess.empty, hPath, hSt, hEx,
        hcond]
  | ok s =>
      simp only [userOf] at hTok hSt ⊢
      simp [ServeHTTPContext, loginOk, userOf, hTok, hPath, hSt, hEx, hcond]

/-- Witness for C8: a matching-state callback with a good code and no
domain restriction. -/
theorem callback_success_redirect_witness :
    ServeHTTPContext h0
        (GetResult.ok { oauthToken := none
                        nextURL := "https://app.example.com/dashboard"
                        state := "st1" })
        (rCallback "st1" "goodcode") exTok true "f" =
      { gate := { cookieWrites := [CookieWrite.set
                      { oauthToken := some tok0, nextURL := "", state := "" }]
                  responses := [HttpResponse.redirect
                      "https://app.example.com/dashboard" 307]
                  ok := false, clientToken := none
                  exchangeAttempted := true
                  domainChecked := h0.requireDomain != "" }
        handlerInvocations := 0 } :=
  callback_success_redirect h0
    (GetResult.ok { oauthToken := none
                    nextURL := "https://app.example.com/dashboard"
                    state := "st1" })
    (rCallback "st1" "goodcode") exTok true "f" tok0
    (by decide) rfl rfl rfl rfl (Or.inl rfl)

/-- Helper: on the abstract gate (`loginOk`, which presupposes a
successful `sessionConfig` and a boolean domain-check outcome), every
completed request makes exactly one outbound decision.  The claim-level
statement over the full gate, crash paths included, is
`one_outbound_decision_no_crash`. -/
theorem loginOk_one_decision (h : OAuthHandler) (dec : GetResult)
    (r : Request) (ex : String → Option OAuthToken) (dok : Bool)
    (fs : String) :
    ((ServeHTTPContext h dec r ex dok fs).handlerInvocations = 1 ∧
      (ServeHTTPContext h dec r ex dok fs).gate.responses = []) ∨
    ((ServeHTTPContext h dec r ex dok fs).handlerInvocations = 0 ∧
      ∃ resp, (ServeHTTPContext h dec r ex dok fs).gate.responses = [resp] ∧
        (resp.code = 307 ∧ resp.isRedirect = true ∨
          (resp.code = 401 ∨ resp.code = 500) ∧ resp.isRedirect = false)) := by
  cases dec with
  | errOther =>
      right
      exact ⟨rfl, HttpResponse.error "internal error" 500, rfl,
        Or.inr ⟨Or.inr rfl, rfl⟩⟩
  | errNoCookie =>
      by_cases hp : r.url.path = callbackPath
      · by_cases hstate : r.formState = ""
        · cases hx : ex r.formCode with
          | none =>
              right
              refine ⟨?_, HttpResponse.error "access forbidden" 401, ?_,
                Or.inr ⟨Or.inl rfl, rfl⟩⟩ <;>
                simp [ServeHTTPContext, loginOk, userOf, Sess.empty, hp,
                  hstate, hx]
          | some tok =>
              by_cases hd : h.requireDomain ≠ "" ∧ dok = false
              · right
                refine ⟨?_, HttpResponse.error "access forbidden" 401, ?_,
                  Or.inr ⟨Or.inl rfl, rfl⟩⟩ <;>
                  simp [ServeHTTPContext, loginOk, userOf, Sess.empty, hp,
                    hstate, hx, hd.1, hd.2]
              · right
                refine ⟨?_, HttpResponse.redirect "" 307, ?_,
                  Or.inl ⟨rfl, rfl⟩⟩ <;>
                  simp [ServeHTTPContext, loginOk, userOf, Sess.empty, hp,
                    hstate, hx, hd]
        · right
          refine ⟨?_, HttpResponse.error "access forbidden" 401, ?_,
            Or.inr ⟨Or.inl rfl, rfl⟩⟩ <;>
            simp [ServeHTTPContext, loginOk, userOf, Sess.empty, hp, hstate]
      · right
        refine ⟨?_, HttpResponse.redirect (authCodeURL (confFor h r) fs) 307,
          ?_, Or.inl ⟨rfl, rfl⟩⟩ <;>
          simp [ServeHTTPContext, loginOk, userOf, Sess.empty, hp]
  | ok s =>
      cases hs : s.oauthToken with
      | some tok =>
          left
          constructor <;> simp [ServeHTTPContext, loginOk, userOf, hs]
      | none =>
          by_cases hp : r.url.path = callbackPath
          · by_cases hstate : r.formState = s.state
            · cases hx : ex r.formCode with
              | none =>
                  right
                  refine ⟨?_, HttpResponse.error "access forbidden" 401, ?_,
                    Or.inr ⟨Or.inl rfl, rfl⟩⟩ <;>
                    simp [ServeHTTPContext, loginOk, userOf, hs, hp, hstate,
                      hx]
              | some tok =>
                  by_cases hd : h.requireDomain ≠ "" ∧ dok = false
                  · right
                    refine ⟨?_, HttpResponse.error "access forbidden" 401, ?_,
                      Or.inr ⟨Or.inl rfl, rfl⟩⟩ <;>
                      simp [ServeHTTPContext, loginOk, userOf, hs, hp, hstate,
                        hx, hd.1, hd.2]
                  · right
                    refine ⟨?_, HttpResponse.redirect s.nextURL 307, ?_,
                      Or.inl ⟨rfl, rfl⟩⟩ <;>
                      simp [ServeHTTPContext, loginOk, userOf, hs, hp, hstate,
                        hx, hd]
            · right
              refine ⟨?_, HttpResponse.error "access forbidden" 401, ?_,
                Or.inr ⟨Or.inl rfl, rfl⟩⟩ <;>
                simp [ServeHTTPContext, loginOk, userOf, hs, hp, hstate]
          · right
            refine ⟨?_, HttpResponse.redirect (authCodeURL (confFor h r) fs)
              307, ?_, Or.inl ⟨rfl, rfl⟩⟩ <;>
              simp [ServeHTTPContext, loginOk, userOf, hs, hp]

/-- Helper: away from the network-error outcome, `domainAllowed` always
returns a boolean (every completed response yields `some`). -/
theorem domainAllowed_total (outcome : HttpGetOutcome) (d : String)
    (hnet : outcome ≠ HttpGetOutcome.netErr) :
    ∃ b, domainAllowed outcome d = some b := by
  cases outcome with
  | netErr => exact absurd rfl hnet
  | resp statusCode body =>
      simp only [domainAllowed]
      split
      · exact ⟨false, rfl⟩
      · cases body with
        | none => exact ⟨false, rfl⟩
        | some gp =>
            dsimp only
            split
            · exact ⟨false, rfl⟩
            · exact ⟨true, rfl⟩

/-- Helper: whenever the environment key is good (no `os.Exit`) and the
profile GET is not a network error (no panic), the full gate completes
and agrees with the abstract gate `loginOk` for some boolean
domain-check outcome. -/
theorem loginOkFull_refines (h : OAuthHandler) (envKEY : String)
    (dec : GetResult) (r : Request) (ex : String → Option OAuthToken)
    (profileGet : HttpGetOutcome) (fs : String)
    (hk : (sessionConfig h envKEY).isExit = false)
    (hnet : profileGet ≠ HttpGetOutcome.netErr) :
    ∃ dok : Bool,
      loginOkFull h envKEY dec r ex profileGet fs =
        GateOutcome.done (loginOk h dec r ex dok fs) := by
  obtain ⟨b, hb⟩ := domainAllowed_total profileGet h.requireDomain hnet
  refine ⟨b, ?_⟩
  cases hc : sessionConfig h envKEY with
  | exit n => rw [hc] at hk; exact absurd hk (by simp [ConfigResult.isExit])
  | ok c =>
      unfold loginOkFull loginOk
      rw [hc]
      cases dec with
      | errOther => rfl
      | errNoCookie =>
          by_cases hp : r.url.path = callbackPath
          · by_cases hstate : r.formState = ""
            · cases hx : ex r.formCode with
              | none => simp [userOf, Sess.empty, hp, hstate, hx]
              | some tok =>
                  by_cases hrd : h.requireDomain = ""
                  · simp [userOf, Sess.empty, hp, hstate, hx, hrd]
                  · cases b with
                    | false =>
                        simp [userOf, Sess.empty, hp, hstate, hx, hrd, hb]
                    | true =>
                        simp [userOf, Sess.empty, hp, hstate, hx, hrd, hb]
            · simp [userOf, Sess.empty, hp, hstate]
          · simp [userOf, Sess.empty, hp]
      | ok s =>
          cases hs : s.oauthToken with
          | some tok => simp [userOf, hs]
          | none =>
              by_cases hp : r.url.path = callbackPath
              · by_cases hstate : r.formState = s.state
                · cases hx : ex r.formCode with
                  | none => simp [userOf, hs, hp, hstate, hx]
                  | some tok =>
                      by_cases hrd : h.requireDomain = ""
                      · simp [userOf, hs, hp, hstate, hx, hrd]
                      · cases b with
                        | false => simp [userOf, hs, hp, hstate, hx, hrd, hb]
                        | true => simp [userOf, hs, hp, hstate, hx, hrd, hb]
                · simp [userOf, hs, hp, hstate]
              · simp [userOf, hs, hp]

/-- Claim C9, counterexample: two concrete requests on which the gate
makes NO outbound decision — the protected handler never runs and no
response at all is written.  First, with the environment key unset,
`keys` calls `os.Exit(1)` from inside the request path before anything
is written.  Second, with a domain restriction configured and the
profile GET failing with a network error, `domainAllowed` panics on the
nil response after a matching-state callback with a successful
exchange. -/
theorem gate_no_decision_cex :
    loginOkFull h0 "" GetResult.errNoCookie rDash exNone
        (HttpGetOutcome.resp 200 none) "f" = GateOutcome.exit 1 ∧
    (loginOkFull h0 "" GetResult.errNoCookie rDash exNone
        (HttpGetOutcome.resp 200 none) "f").responsesWritten = [] ∧
    (loginOkFull h0 "" GetResult.errNoCookie rDash exNone
        (HttpGetOutcome.resp 200 none) "f").handlerInvocations = 0 ∧
    loginOkFull hDom goodHex
        (GetResult.ok { oauthToken := none
                        nextURL := "https://app.example.com/dashboard"
                        state := "st1" })
        (rCallback "st1" "goodcode") exTok HttpGetOutcome.netErr "f" =
      GateOutcome.panic ∧
    (loginOkFull hDom goodHex
        (GetResult.ok { oauthToken := none
                        nextURL := "https://app.example.com/dashboard"
                        state := "st1" })
        (rCallback "st1" "goodcode") exTok HttpGetOutcome.netErr
        "f").responsesWritten = [] ∧
    (loginOkFull hDom goodHex
        (GetResult.ok { oauthToken := none
                        nextURL := "https://app.example.com/dashboard"
                        state := "st1" })
        (rCallback "st1" "goodcode") exTok HttpGetOutcome.netErr
        "f").handlerInvocations = 0 := by
  decide

/-- Claim C9, amended: outside the two crash paths — the environment
key decodes to 32 bytes, so `keys` does not exit the process
mid-request, and the profile GET is not a network error, so
`domainAllowed` cannot panic — the gate makes exactly one outbound
decision per request: either the protected handler is invoked exactly
once and the gate writes no response of its own, or exactly one
response is written, with code 307 (a redirect) or 401 or 500 (errors),
and the handler is never invoked.  On the crash paths no decision is
made at all. -/
theorem one_outbound_decision_no_crash (h : OAuthHandler) (envKEY : String)
    (dec : GetResult) (r : Request) (ex : String → Option OAuthToken)
    (profileGet : HttpGetOutcome) (fs : String)
    (hk : (sessionConfig h envKEY).isExit = false)
    (hnet : profileGet ≠ HttpGetOutcome.netErr) :
    ((loginOkFull h envKEY dec r ex profileGet fs).handlerInvocations = 1 ∧
      (loginOkFull h envKEY dec r ex profileGet fs).responsesWritten = []) ∨
    ((loginOkFull h envKEY dec r ex profileGet fs).handlerInvocations = 0 ∧
      ∃ resp,
        (loginOkFull h envKEY dec r ex profileGet fs).responsesWritten =
          [resp] ∧
        (resp.code = 307 ∧ resp.isRedirect = true ∨
          (resp.code = 401 ∨ resp.code = 500) ∧ resp.isRedirect = false)) := by
  obtain ⟨dok, heq⟩ := loginOkFull_refines h envKEY dec r ex profileGet fs hk
    hnet
  rw [heq]
  have hold := loginOk_one_decision h dec r ex dok fs
  simpa [GateOutcome.handlerInvocations, GateOutcome.responsesWritten,
    ServeHTTPContext] using hold

/-- Witness for the amended C9 theorem: a cookie-less request with a
valid environment key and a completed profile GET. -/
theorem one_outbound_decision_no_crash_witness :
    ((loginOkFull h0 goodHex GetResult.errNoCookie rDash exNone
        (HttpGetOutcome.resp 200 none) "f").handlerInvocations = 1 ∧
      (loginOkFull h0 goodHex GetResult.errNoCookie rDash exNone
        (HttpGetOutcome.resp 200 none) "f").responsesWritten = []) ∨
    ((loginOkFull h0 goodHex GetResult.errNoCookie rDash exNone
        (HttpGetOutcome.resp 200 none) "f").handlerInvocations = 0 ∧
      ∃ resp,
        (loginOkFull h0 goodHex GetResult.errNoCookie rDash exNone
          (HttpGetOutcome.resp 200 none) "f").responsesWritten = [resp] ∧
        (resp.code = 307 ∧ resp.isRedirect = true ∨
          (resp.code = 401 ∨ resp.code = 500) ∧ resp.isRedirect = false)) :=
  one_outbound_decision_no_crash h0 goodHex GetResult.errNoCookie rDash exNone
    (HttpGetOutcome.resp 200 none) "f" (by decide) (by decide)

/-- Claim C10: once a session holds a token the domain verifier is never
consulted — the gate forwards without calling domainAllowed even when
RequireDomain is non-empty — and domainAllowed is ever consulted only
while processing a callback-path request. -/
theorem domain_check_only_on_callback :
    (∀ (h : OAuthHandler) (s : Sess) (r : Request)
        (ex : String → Option OAuthToken) (dok : Bool) (fs : String)
        (tok : OAuthToken),
        s.oauthToken = some tok →
          (loginOk h (GetResult.ok s) r ex dok fs).domainChecked = false ∧
          (loginOk h (GetResult.ok s) r ex dok fs).ok = true) ∧
    (∀ (h : OAuthHandler) (dec : GetResult) (r : Request)
        (ex : String → Option OAuthToken) (dok : Bool) (fs : String),
        (loginOk h dec r ex dok fs).domainChecked = true →
          r.url.path = callbackPath) := by
  constructor
  · intro h s r ex dok fs tok hTok
    constructor <;> simp [loginOk, userOf, hTok]
  · intro h dec r ex dok fs hdc
    by_contra hp
    cases dec with
    | errOther => simp [loginOk] at hdc
    | errNoCookie => simp [loginOk, userOf, Sess.empty, hp] at hdc
    | ok s =>
        cases hs : s.oauthToken with
        | some tok => simp [loginOk, userOf, hs] at hdc
        | none => simp [loginOk, userOf, hs, hp] at hdc

/-- Witness for C10: with a non-empty RequireDomain and a token-bearing
session, the domain verifier is not consulted and the request is
forwarded. -/
theorem domain_check_only_on_callback_witness :
    (loginOk hDom
        (GetResult.ok { oauthToken := some tok0, nextURL := "", state := "" })
        rDash exNone false "f").domainChecked = false ∧
    (loginOk hDom
        (GetResult.ok { oauthToken := some tok0, nextURL := "", state := "" })
        rDash exNone false "f").ok = true :=
  domain_check_only_on_callback.1 hDom
    { oauthToken := some tok0, nextURL := "", state := "" }
    rDash exNone false "f" tok0 rfl

end Authenticater
